import Mathlib

/-!
Verification development for the wttr.in → InfluxDB weather collector
(`app/main.py`, `app/wttr_manager.py`, `app/settings.py`,
`app/influxdb_manager.py`).

The Python code is shallowly embedded: JSON values parsed by
`response.json()` become the inductive `JVal` (Python `None` and JSON
`null` are both `JVal.jNull`), Python exceptions become an explicit
`Except PyExc` result, and numeric coercion by `float(...)` is modelled
exactly over `ℚ` (every numeric literal appearing in the claims is exactly
representable, so rationals are a faithful stand-in for IEEE doubles
there).  IANA timezone data used through `zoneinfo.ZoneInfo` is modelled
by `TzModel`, a zone with a single UTC-offset transition, following the
PEP-495 `fold = 0` disambiguation that `datetime.replace(tzinfo := ...)`
applies; civil times and instants are minutes since 1970-01-01 (the
source format has minute precision and always renders `:00` seconds).
-/

/-- Python exception classes that the embedded code can raise or catch.
`keyError`, `indexError` and `valueError` are the classes caught by the
`except` clauses in `wttr_manager.fetch_data`; `typeError` and
`attributeError` are raised by the runtime on ill-typed operations and are
caught only where the source catches them (`_get_field_value`,
`_build_point`'s float conversion, and the bare `except Exception` of
`parse_observation_time`). -/
inductive PyExc where
  | keyError
  | indexError
  | valueError
  | typeError
  | attributeError
deriving DecidableEq, Repr

/-- A parsed JSON value as produced by `response.json()`.  `jNull` doubles
as the Python `None` object (JSON `null` parses to `None`). -/
inductive JVal where
  | jNull
  | jStr (s : String)
  | jNum (q : ℚ)
  | jArr (xs : List JVal)
  | jObj (fields : List (String × JVal))

/-- First-match lookup in a JSON object's field list (Python dict keys are
unique, so first-match agrees with dict lookup). -/
def jlookup : List (String × JVal) → String → Option JVal
  | [], _ => none
  | (k, v) :: rest, key => if k = key then some v else jlookup rest key

/-- Python `x.get(key, dflt)`: defined for dicts, raises `AttributeError`
on every other value (lists, strings, numbers and `None` have no `get`
method). -/
def getAttrE (v : JVal) (key : String) (dflt : JVal) : Except PyExc JVal :=
  match v with
  | .jObj fs => .ok ((jlookup fs key).getD dflt)
  | _ => .error .attributeError

/-- Python `x.get(key)` with the implicit `None` default. -/
def getAttrNoneE (v : JVal) (key : String) : Except PyExc JVal :=
  getAttrE v key .jNull

/-- Python `x[0]`: head of a list (`IndexError` when empty), first
character of a string (`IndexError` when empty), `KeyError` for a dict
(the JSON object keys are strings, so the integer key `0` is never
present), `TypeError` for numbers and `None`. -/
def index0E : JVal → Except PyExc JVal
  | .jArr [] => .error .indexError
  | .jArr (x :: _) => .ok x
  | .jStr s =>
    match s.data with
    | [] => .error .indexError
    | c :: _ => .ok (.jStr (String.mk [c]))
  | .jObj _ => .error .keyError
  | .jNum _ => .error .typeError
  | .jNull => .error .typeError

/-- Python truthiness: empty containers, the empty string, zero and `None`
are falsy. -/
def truthy : JVal → Bool
  | .jNull => false
  | .jStr s => s ≠ ""
  | .jNum q => q ≠ 0
  | .jArr xs => !xs.isEmpty
  | .jObj fs => !fs.isEmpty

/-- Catch `KeyError`, `IndexError` and `ValueError`, the classes named by
`except (KeyError, IndexError, ValueError)` in `fetch_data`, replacing the
caught exception by a default result; every other exception propagates. -/
def pyCatch3 {α : Type} (dflt : α) : Except PyExc α → Except PyExc α
  | .error .keyError => .ok dflt
  | .error .indexError => .ok dflt
  | .error .valueError => .ok dflt
  | r => r

/-- Numeric value of a digit character, `none` for non-digits. -/
def digitVal (c : Char) : Option Nat :=
  if c.isDigit then some (c.toNat - 48) else none

/-- Consume a maximal run of digits, returning accumulated value, number
of digits consumed, and the rest of the input. -/
def parseDigitsAux : List Char → Nat → Nat → Nat × Nat × List Char
  | [], acc, cnt => (acc, cnt, [])
  | c :: cs, acc, cnt =>
    match digitVal c with
    | some d => parseDigitsAux cs (acc * 10 + d) (cnt + 1)
    | none => (acc, cnt, c :: cs)

/-- The decimal core of Python `float(str)`: optional sign, integer and/or
fractional digits, optional exponent.  (The model omits the `inf`/`nan`
words, embedded underscores and surrounding whitespace Python also
accepts; no claim depends on those forms.) -/
def parseFloatStr (s : String) : Option ℚ :=
  let cs := s.data
  let sgn : Int × List Char :=
    match cs with
    | '-' :: rest => (-1, rest)
    | '+' :: rest => (1, rest)
    | _ => (1, cs)
  let (ip, ic, cs₁) := parseDigitsAux sgn.2 0 0
  let fracStep : Nat × Nat × List Char :=
    match cs₁ with
    | '.' :: rest => parseDigitsAux rest 0 0
    | _ => (0, 0, cs₁)
  let (fp, fc, cs₂) := fracStep
  if ic = 0 ∧ fc = 0 then none
  else
    let num : Int := sgn.1 * ((ip * 10 ^ fc + fp : Nat) : Int)
    let den : Nat := 10 ^ fc
    match cs₂ with
    | [] => some (mkRat num den)
    | 'e' :: rest => parseFloatExp num den rest
    | 'E' :: rest => parseFloatExp num den rest
    | _ => none
where
  /-- Exponent part `e[+-]?d+` of a Python float literal, scaling the
  numerator or the denominator of the mantissa. -/
  parseFloatExp (num : Int) (den : Nat) (rest : List Char) : Option ℚ :=
    let es : Bool × List Char :=
      match rest with
      | '-' :: r => (true, r)
      | '+' :: r => (false, r)
      | _ => (false, rest)
    let (ev, ec, rest₂) := parseDigitsAux es.2 0 0
    if ec = 0 ∨ !rest₂.isEmpty then none
    else if es.1 then some (mkRat num (den * 10 ^ ev))
    else some (mkRat (num * ((10 ^ ev : Nat) : Int)) den)

/-- Exact rational addition on the numerator/denominator representation.
It agrees with `+` on `ℚ` (`ratAdd_eq_add`); the embedding computes with
it because the library's `Rat.add` is irreducible, which would block
kernel evaluation of concrete runs. -/
def ratAdd (a b : ℚ) : ℚ :=
  mkRat (a.num * (b.den : Int) + b.num * (a.den : Int)) (a.den * b.den)

theorem ratAdd_eq_add (a b : ℚ) : ratAdd a b = a + b := by
  have ha : ((a.den : ℚ)) ≠ 0 := by exact_mod_cast a.den_nz
  have hb : ((b.den : ℚ)) ≠ 0 := by exact_mod_cast b.den_nz
  rw [ratAdd, Rat.mkRat_eq_div]
  push_cast
  conv_rhs => rw [← Rat.num_div_den a, ← Rat.num_div_den b]
  field_simp

/-- Python `float(value)`: identity on numbers, decimal parse of strings
(`ValueError` on failure), `TypeError` on `None`, lists and dicts. -/
def pyFloatE : JVal → Except PyExc ℚ
  | .jNum q => .ok q
  | .jStr s =>
    match parseFloatStr s with
    | some q => .ok q
    | none => .error .valueError
  | .jNull => .error .typeError
  | .jArr _ => .error .typeError
  | .jObj _ => .error .typeError

/-- Leap-year rule used by Python's `datetime` (proleptic Gregorian). -/
def isLeap (y : Nat) : Bool :=
  y % 4 = 0 ∧ (y % 100 ≠ 0 ∨ y % 400 = 0)

/-- Length of a month, as enforced by the `datetime` constructor that
`strptime` uses to validate the parsed day. -/
def daysInMonth (y m : Nat) : Nat :=
  if m = 2 then (if isLeap y then 29 else 28)
  else if m = 4 ∨ m = 6 ∨ m = 9 ∨ m = 11 then 30
  else 31

/-- Days from 1970-01-01 to the civil date `y-m-d` (Howard Hinnant's
`days_from_civil`); all intermediate dividends are non-negative for the
years `strptime` can produce (1..9999), so Lean's integer division
agrees with the C truncation of the original. -/
def daysFromCivil (y : Int) (m d : Nat) : Int :=
  let y' := if m ≤ 2 then y - 1 else y
  let era := (if 0 ≤ y' then y' else y' - 399) / 400
  let yoe := y' - era * 400
  let mp : Int := if 2 < m then (m : Int) - 3 else (m : Int) + 9
  let doy := (153 * mp + 2) / 5 + (d : Int) - 1
  let doe := yoe * 365 + yoe / 4 - yoe / 100 + doy
  era * 146097 + doe - 719468

/-- Civil date-time to minutes since 1970-01-01 00:00. -/
def civilToMin (y m d h mi : Nat) : Int :=
  daysFromCivil (y : Int) m d * 1440 + (h : Int) * 60 + (mi : Int)

/-- Inverse of `daysFromCivil` (Hinnant's `civil_from_days`), used to
render an instant back into a civil date for `strftime`. -/
def civilFromDays (z : Int) : Int × Nat × Nat :=
  let z' := z + 719468
  let era := (if 0 ≤ z' then z' else z' - 146096) / 146097
  let doe := z' - era * 146097
  let yoe := (doe - doe / 1460 + doe / 36524 - doe / 146096) / 365
  let y := yoe + era * 400
  let doy := doe - (365 * yoe + yoe / 4 - yoe / 100)
  let mp := (5 * doy + 2) / 153
  let d := doy - (153 * mp + 2) / 5 + 1
  let m := if mp < 10 then mp + 3 else mp - 9
  (if m ≤ 2 then y + 1 else y, m.toNat, d.toNat)

/-- Expect one literal character, as the literal separators of the
`strptime` format string do. -/
def expectChar (c : Char) : List Char → Option (List Char)
  | [] => none
  | x :: rest => if x = c then some rest else none

/-- One-or-two-digit numeric field of `strptime` with an inclusive range,
mirroring the CPython `TimeRE` character classes (two digits are taken
when they form an in-range value, otherwise a single in-range digit). -/
def parse2Range (lo hi : Nat) : List Char → Option (Nat × List Char)
  | [] => none
  | c1 :: rest1 =>
    match digitVal c1 with
    | none => none
    | some d1 =>
      match rest1 with
      | c2 :: rest2 =>
        match digitVal c2 with
        | some d2 =>
          let v := d1 * 10 + d2
          if lo ≤ v ∧ v ≤ hi then some (v, rest2)
          else if lo ≤ d1 ∧ d1 ≤ hi then some (d1, rest1)
          else none
        | none => if lo ≤ d1 ∧ d1 ≤ hi then some (d1, rest1) else none
      | [] => if lo ≤ d1 ∧ d1 ≤ hi then some (d1, []) else none

/-- Exactly-four-digit `%Y` field of CPython's `strptime`. -/
def parse4 : List Char → Option (Nat × List Char)
  | c1 :: c2 :: c3 :: c4 :: rest => do
    let d1 ← digitVal c1
    let d2 ← digitVal c2
    let d3 ← digitVal c3
    let d4 ← digitVal c4
    pure (((d1 * 10 + d2) * 10 + d3) * 10 + d4, rest)
  | _ => none

/-- Case-insensitive `%p` field (`AM`/`PM`); `true` means PM. -/
def parseAmPm : List Char → Option (Bool × List Char)
  | c1 :: c2 :: rest =>
    if (c1 = 'A' ∨ c1 = 'a') ∧ (c2 = 'M' ∨ c2 = 'm') then some (false, rest)
    else if (c1 = 'P' ∨ c1 = 'p') ∧ (c2 = 'M' ∨ c2 = 'm') then some (true, rest)
    else none
  | _ => none

/-- `datetime.strptime(s, "%Y-%m-%d %I:%M %p")` followed by reading the
resulting naive datetime as minutes since 1970-01-01: the fixed
observation-time format of `parse_observation_time`.  `none` models the
`ValueError` raised on any mismatch (including trailing input and a day
out of range for the month). -/
def strptimeObs (s : String) : Option Int := do
  let cs := s.data
  let (y, cs) ← parse4 cs
  let cs ← expectChar '-' cs
  let (m, cs) ← parse2Range 1 12 cs
  let cs ← expectChar '-' cs
  let (d, cs) ← parse2Range 1 31 cs
  let cs ← expectChar ' ' cs
  let (h12, cs) ← parse2Range 1 12 cs
  let cs ← expectChar ':' cs
  let (mi, cs) ← parse2Range 0 59 cs
  let cs ← expectChar ' ' cs
  let (pm, cs) ← parseAmPm cs
  if cs.isEmpty ∧ 1 ≤ y ∧ d ≤ daysInMonth y m then
    some (civilToMin y m d (h12 % 12 + if pm then 12 else 0) mi)
  else none

/-- Zero-padded two-digit decimal rendering. -/
def pad2 (n : Nat) : String :=
  if n < 10 then "0" ++ toString n else toString n

/-- Zero-padded four-digit decimal rendering. -/
def pad4 (n : Nat) : String :=
  if n < 10 then "000" ++ toString n
  else if n < 100 then "00" ++ toString n
  else if n < 1000 then "0" ++ toString n
  else toString n

/-- `strftime('%Y-%m-%dT%H:%M:%SZ')` on an aware UTC datetime holding the
instant `u` (minutes since epoch); seconds are always zero because the
source format carries minute precision. -/
def fmtIso (u : Int) : String :=
  let day := u / 1440
  let rem := (u % 1440).toNat
  let ymd := civilFromDays day
  pad4 ymd.1.toNat ++ "-" ++ pad2 ymd.2.1 ++ "-" ++ pad2 ymd.2.2 ++ "T" ++
    pad2 (rem / 60) ++ ":" ++ pad2 (rem % 60) ++ ":00Z"

/-- A timezone with a single UTC-offset transition: before the UTC
instant `trans` the offset from UTC is `offBefore` minutes, from `trans`
on it is `offAfter`.  This models the slice of the IANA database that
`ZoneInfo` consults for the instants exercised here. -/
structure TzModel where
  trans : Int
  offBefore : Int
  offAfter : Int

/-- Offset attached to a naive local time by
`datetime.replace(tzinfo=ZoneInfo(...))` under PEP-495 `fold = 0`: the
pre-transition offset applies to every wall-clock reading below the
transition's latest wall-clock boundary (so ambiguous readings take their
first occurrence, and nonexistent readings in a spring-forward gap are
extrapolated with the pre-gap offset). -/
def localOffset (z : TzModel) (l : Int) : Int :=
  if l < z.trans + max z.offBefore z.offAfter then z.offBefore else z.offAfter

/-- Offset of the zone at a UTC instant. -/
def utcOffset (z : TzModel) (u : Int) : Int :=
  if u < z.trans then z.offBefore else z.offAfter

/-- `local_dt.astimezone(ZoneInfo("UTC"))` applied to the aware local
datetime: subtract the attached offset to reach the UTC instant. -/
def localToUTC (z : TzModel) (l : Int) : Int :=
  l - localOffset z l

/-- Reading a UTC instant back in the zone's wall-clock time. -/
def utcToLocal (z : TzModel) (u : Int) : Int :=
  u + utcOffset z u

/-- A wall-clock reading that no instant of the zone ever shows: the
spring-forward gap `[trans + offBefore, trans + offAfter)`. -/
def inGap (z : TzModel) (l : Int) : Prop :=
  z.offBefore < z.offAfter ∧ z.trans + z.offBefore ≤ l ∧ l < z.trans + z.offAfter

instance (z : TzModel) (l : Int) : Decidable (inGap z l) := by
  unfold inGap; infer_instance

/-- The UTC zone: both offsets zero. -/
def utcTz : TzModel := ⟨0, 0, 0⟩

/-- America/Los_Angeles around 2025: PST (UTC-480 min) until the DST
transition at 2025-03-09 10:00 UTC, PDT (UTC-420 min) afterwards.
Modelled from the IANA rule for that date; valid for the instants this
development evaluates (between the 2024 and 2025 fall transitions). -/
def laTz : TzModel := ⟨civilToMin 2025 3 9 10 0, -480, -420⟩

/-- The `ZoneInfo` registry restricted to the zone names this development
exercises; any other name raises `ZoneInfoNotFoundError`, which
`parse_observation_time` absorbs into its `None` result. -/
def zoneOf : String → Option TzModel
  | "UTC" => some utcTz
  | "America/Los_Angeles" => some laTz
  | _ => none

/-- The per-location configuration dictionaries of `settings.CITY_DICTS`:
`city` and `country` are always present; `tz` is read with
`city_info.get("tz", "UTC")`, so it may be absent. -/
structure CityInfo where
  city : String
  country : String
  tz : Option String

/-- The `localObsDateTime` string reached by `parse_observation_time`
via `data.get("current_condition", [{}])[0].get("localObsDateTime")`,
provided the access raises nothing and yields a string (any exception or
non-string is absorbed by the enclosing `except Exception`, since
`strptime` raises `TypeError` on non-string input). -/
def getLocalObsStr (data : JVal) : Option String :=
  match (do
      let cc ← getAttrE data "current_condition" (.jArr [.jObj []])
      let cc0 ← index0E cc
      getAttrNoneE cc0 "localObsDateTime" : Except PyExc JVal) with
  | .ok (.jStr s) => some s
  | _ => none

/-- The UTC instant computed by `Wttr.parse_observation_time`
(`wttr_manager.py` lines 19-31): extract the local observation string,
`strptime` it, attach the location's zone (default `"UTC"`), convert to
UTC.  Every exception of the original is absorbed to `none` by its bare
`except Exception` handler. -/
def parseObsUTCMin (data : JVal) (ci : CityInfo) : Option Int := do
  let s ← getLocalObsStr data
  let l ← strptimeObs s
  let z ← zoneOf (ci.tz.getD "UTC")
  pure (localToUTC z l)

/-- `Wttr.parse_observation_time` (`wttr_manager.py` lines 12-38): the
UTC instant rendered with `strftime('%Y-%m-%dT%H:%M:%SZ')`, or `None` on
any failure.  Note the returned value is a string. -/
def parse_observation_time (data : JVal) (ci : CityInfo) : Option String :=
  (parseObsUTCMin data ci).map fmtIso

/-- The transport-level outcome of `requests.get` in `fetch_data`: a
response (status code, body size in bytes, JSON parse of the body with
`none` for a body that is not valid JSON), or one of the three
`requests` exception classes caught at the bottom of `fetch_data`. -/
inductive FetchOutcome where
  | resp (status : Nat) (contentLen : Nat) (body : Option JVal)
  | timeout
  | connError
  | reqError

/-- The capacity/validity check of `fetch_data`'s HTTP-200 branch
(`wttr_manager.py` lines 56-77), run inside
`except (KeyError, IndexError, ValueError)`. -/
def fetch200E (body : Option JVal) : Except PyExc (Option JVal) :=
  pyCatch3 none (do
    let data ← match body with
      | none => (.error .valueError : Except PyExc JVal)
      | some d => .ok d
    let na ← getAttrE data "nearest_area" (.jArr [.jObj []])
    let na0 ← index0E na
    if !truthy na0 then
      pure none
    else do
      let an ← getAttrE na0 "areaName" (.jArr [.jObj []])
      let an0 ← index0E an
      let v ← getAttrNoneE an0 "value"
      let isEmptyName : Bool := match v with
        | .jStr t => t = ""
        | _ => false
      if isEmptyName then
        pure none
      else do
        let cc ← getAttrE data "current_condition" (.jArr [])
        if !truthy cc then
          pure none
        else
          pure (some data))

/-- The wrong-city diagnostic of `fetch_data`'s HTTP-404 branch
(`wttr_manager.py` lines 82-91): the body is parsed and inspected only
for logging, inside `except (KeyError, IndexError, ValueError)`; the
branch result is `None` unless an uncaught exception escapes. -/
def fetch404E (body : Option JVal) : Except PyExc (Option JVal) :=
  pyCatch3 () (do
    let data ← match body with
      | none => (.error .valueError : Except PyExc JVal)
      | some d => .ok d
    let na ← getAttrE data "nearest_area" (.jArr [.jObj []])
    let na0 ← index0E na
    let an ← getAttrE na0 "areaName" (.jArr [.jObj []])
    let an0 ← index0E an
    let _returnedCity ← getAttrE an0 "value" (.jStr "")
    pure ()) |>.map (fun _ => none)

/-- `Wttr.fetch_data` (`wttr_manager.py` lines 40-109) from the transport
outcome on: HTTP 200 runs the guarded validity check, HTTP 404 with a
body over 1000 bytes runs the guarded wrong-city diagnostic, every other
status and every caught `requests` exception yields `None`. -/
def fetchDataE : FetchOutcome → Except PyExc (Option JVal)
  | .timeout => .ok none
  | .connError => .ok none
  | .reqError => .ok none
  | .resp status contentLen body =>
    if status = 200 then
      fetch200E body
    else if status = 404 then
      if 1000 < contentLen then fetch404E body else .ok none
    else
      .ok none

/-- `settings.KELVIN_OFFSET`. -/
def KELVIN_OFFSET : ℚ := 273

/-- `settings.MEASUREMENTS`, in insertion order: logical field name →
wttr.in JSON key. -/
def MEASUREMENTS : List (String × String) :=
  [("humidity", "humidity"),
   ("pressure", "pressureInches"),
   ("temp_celsius", "temp_C"),
   ("temp_fahrenheit", "temp_F"),
   ("temp_kelvin", "temp_K"),
   ("cloudcover", "cloudcover"),
   ("latitude", "latitude"),
   ("longitude", "longitude")]

/-- `_get_field_value` (`main.py` lines 32-44): geographic fields read
the nearest-area region, `temp_kelvin` is derived as
`float(current_condition.get("temp_C", 0)) + KELVIN_OFFSET` (with `None`
returned when the conversion raises `ValueError`/`TypeError`), and every
other field reads the current-condition region.  The result `jNull`
models a Python `None` return. -/
def getFieldValueE (fieldName jsonKey : String) (cc na : JVal) :
    Except PyExc JVal :=
  if fieldName = "latitude" ∨ fieldName = "longitude" then
    getAttrNoneE na jsonKey
  else if fieldName = "temp_kelvin" then do
    let tempC ← getAttrE cc "temp_C" (.jNum 0)
    match pyFloatE tempC with
    | .ok q => pure (.jNum (ratAdd q KELVIN_OFFSET))
    | .error _ => pure .jNull
  else
    getAttrNoneE cc jsonKey

/-- The field loop of `_build_point` (`main.py` lines 89-103): each
measurement resolves through `_get_field_value`; a non-`None` value is
`float`-coerced into the point's fields, and a `None` value or a
coercion failure (`ValueError`/`TypeError`) appends the field name to
the missing-fields list instead. -/
def buildFields (ms : List (String × String)) (cc na : JVal) :
    Except PyExc (List (String × ℚ) × List String) :=
  match ms with
  | [] => .ok ([], [])
  | p :: rest => do
    let v ← getFieldValueE p.1 p.2 cc na
    let tail ← buildFields rest cc na
    match v with
    | .jNull => pure (tail.1, p.1 :: tail.2)
    | w =>
      match pyFloatE w with
      | .ok q => pure ((p.1, q) :: tail.1, tail.2)
      | .error _ => pure (tail.1, p.1 :: tail.2)

/-- The observation record assembled by `_build_point`: the Influx point
with its measurement name, tags, timestamp string and numeric fields. -/
structure ObsPoint where
  measurement : String
  city : String
  country : String
  time : String
  fields : List (String × ℚ)

/-- `timestamp_dt.strftime(...)` as executed by `_build_point` line 82:
`parse_observation_time` returns a `str` (not the `datetime` its caller's
comment announces), and Python's `str` has no `strftime` attribute, so
the call raises `AttributeError` unconditionally. -/
def strStrftimeE (_s _fmt : String) : Except PyExc String :=
  .error .attributeError

/-- `_build_point` (`main.py` lines 69-105): index into the two response
regions (uncaught exceptions propagate), obtain the timestamp (`None`
skips the location), render it with `strftime`, then run the field loop
and assemble the point. -/
def buildPointE (data : JVal) (ci : CityInfo)
    (ms : List (String × String)) :
    Except PyExc (Option ObsPoint × List String × String × Option String) := do
  let cc ← getAttrE data "current_condition" (.jArr [.jObj []])
  let cc0 ← index0E cc
  let na ← getAttrE data "nearest_area" (.jArr [.jObj []])
  let na0 ← index0E na
  match parse_observation_time data ci with
  | none => pure (none, [], ci.city, none)
  | some tsStr => do
    let ts ← strStrftimeE tsStr "%Y-%m-%dT%H:%M:%SZ"
    let fm ← buildFields ms cc0 na0
    pure (some { measurement := "weather_data", city := ci.city,
                 country := ci.country, time := ts, fields := fm.1 },
          fm.2, ci.city, some ts)

/-- The `last_seen_timestamps` dictionary: city name → most recent newly
recorded timestamp string. -/
abbrev LastSeen : Type := List (String × String)

/-- Dict lookup in `last_seen_timestamps`. -/
def lsLookup : LastSeen → String → Option String
  | [], _ => none
  | (k, v) :: rest, key => if k = key then some v else lsLookup rest key

/-- Dict assignment `last_seen[city] = timestamp`. -/
def lsSet : LastSeen → String → String → LastSeen
  | [], c, t => [(c, t)]
  | (k, v) :: rest, c, t =>
    if k = c then (c, t) :: rest else (k, v) :: lsSet rest c t

/-- `_write_point` (`main.py` lines 46-67): compute `is_new` from the
index, attempt the sink write (`writeOk` is the result of
`influx_manager.write_data`, which catches its own exceptions); on a
successful write of a new timestamp, update the index and return the
city name; otherwise return `None` and leave the index unchanged. -/
def writePoint (writeOk : Bool) (city ts : String) (_missing : List String)
    (lastSeen : LastSeen) : Option String × LastSeen :=
  let isNew : Bool := lsLookup lastSeen city != some ts
  if writeOk then
    if isNew then (some city, lsSet lastSeen city ts)
    else (none, lastSeen)
  else (none, lastSeen)

/-- One entry of `points_to_write`: `(point, city, timestamp,
missing_fields)`. -/
abbrev WriteItem : Type := ObsPoint × String × String × List String

/-- The transform phase of `_fetch_and_process_weather_data` (`main.py`
lines 119-126): each truthy fetch result is passed through
`_build_point`; locations whose timestamp could not be parsed are
dropped.  Exceptions raised by `_build_point` propagate (there is no
handler in the cycle). -/
def transformPhaseE (pairs : List (CityInfo × Option JVal))
    (ms : List (String × String)) : Except PyExc (List WriteItem) :=
  match pairs with
  | [] => .ok []
  | (ci, d?) :: rest =>
    match d? with
    | some d =>
      if truthy d then do
        let r ← buildPointE d ci ms
        let tail ← transformPhaseE rest ms
        match r with
        | (some pt, missing, city, ts?) =>
          .ok ((pt, city, ts?.getD "", missing) :: tail)
        | (none, _, _, _) => .ok tail
      else transformPhaseE rest ms
    | none => transformPhaseE rest ms

/-- The record phase of `_fetch_and_process_weather_data` (`main.py`
lines 129-135): write every built point through `_write_point`,
collecting the cities whose timestamp was newly recorded and threading
`last_seen_timestamps`. -/
def recordPhase (writeOk : Bool) : List WriteItem → LastSeen →
    List String × LastSeen
  | [], ls => ([], ls)
  | (_, city, ts, missing) :: rest, ls =>
    let r := writePoint writeOk city ts missing ls
    let tail := recordPhase writeOk rest r.2
    (match r.1 with
     | some c => c :: tail.1
     | none => tail.1, tail.2)

/-- Outcome of one collection cycle: whether `influx_manager.close()`
(line 160) was reached, the recorded-city list, and the attempted count
(`len(points_to_write)`). -/
structure CycleOut where
  closed : Bool
  recorded : List String
  attempted : Nat

/-- `_collect_weather_data` (`main.py` lines 139-178) for one cycle:
`bucketExists` and `createOk` are the results of the two provisioning
calls (both catch their own exceptions and return booleans); when both
fail the function returns early — before `influx_manager.close()` —
otherwise it runs the transform and record phases (whose exceptions
propagate) and closes the connection. -/
def collectCycleE (bucketExists createOk : Bool)
    (fetched : List (CityInfo × Option JVal)) (ms : List (String × String))
    (writeOk : Bool) (ls : LastSeen) : Except PyExc (CycleOut × LastSeen) :=
  if !bucketExists ∧ !createOk then
    .ok ({ closed := false, recorded := [], attempted := 0 }, ls)
  else do
    let items ← transformPhaseE fetched ms
    let rp := recordPhase writeOk items ls
    .ok ({ closed := true, recorded := rp.1, attempted := items.length }, rp.2)

/-- The daemon loop of `main` (`main.py` lines 187-189) over a finite
prefix of cycles, each given its per-location fetch outcomes: an
exception escaping `_collect_weather_data` propagates out of the `while`
loop and ends the process, so later cycles never run. -/
def runCyclesE : List (List (CityInfo × Option JVal)) → LastSeen →
    Except PyExc LastSeen
  | [], ls => .ok ls
  | f :: rest, ls => do
    let r ← collectCycleE true true f MEASUREMENTS true ls
    runCyclesE rest r.2

/-- Start time (in seconds) of the n-th collection cycle under `main`'s
loop `while True: _collect_weather_data(...); time.sleep(30)`, given each
cycle's duration: the sleep begins only after the cycle finishes, so each
period is the cycle's duration plus 30 seconds. -/
def cycleStart (durs : Nat → Nat) : Nat → Nat
  | 0 => 0
  | n + 1 => cycleStart durs n + durs n + 30

/-- An HTTP-200 body whose nearest-area name is the empty string: the
"at capacity" disguise of wttr.in. -/
def emptyNameBody : JVal :=
  .jObj [("nearest_area",
          .jArr [.jObj [("areaName", .jArr [.jObj [("value", .jStr "")]])]])]

/-- An HTTP-200 body with a valid nearest-area name but an empty
current-condition list. -/
def emptyCCBody : JVal :=
  .jObj [("nearest_area",
          .jArr [.jObj [("areaName", .jArr [.jObj [("value", .jStr "X")]])]]),
         ("current_condition", .jArr [])]

/-- A fully well-formed wttr.in response for Los Angeles with a parseable
observation time and `temp_C = "20"`. -/
def dataLA : JVal :=
  .jObj [("current_condition",
          .jArr [.jObj [("localObsDateTime", .jStr "2025-04-21 11:55 AM"),
                        ("temp_C", .jStr "20")]]),
         ("nearest_area",
          .jArr [.jObj [("areaName",
                         .jArr [.jObj [("value", .jStr "Los Angeles")]]),
                        ("latitude", .jStr "34.05"),
                        ("longitude", .jStr "-118.24")]])]

/-- The Los Angeles entry of `settings.CITY_DICTS`. -/
def ciLA : CityInfo := ⟨"Los Angeles", "USA", some "America/Los_Angeles"⟩

/-- A location configured with the UTC zone. -/
def ciUTC : CityInfo := ⟨"TestCity", "TST", some "UTC"⟩

/-- A location dictionary with no `tz` entry. -/
def ciNoTz : CityInfo := ⟨"TestCity", "TST", none⟩

/-- Current-condition region carrying `temp_C = "20"` together with a
native `temp_K` key holding an unrelated value. -/
def ccTempC20 : JVal :=
  .jObj [("localObsDateTime", .jStr "2025-04-21 11:55 AM"),
         ("temp_C", .jStr "20"), ("temp_K", .jStr "999")]

/-- Raw response built around `ccTempC20` (the nearest-area key is
absent, so `_build_point`'s default `[{}]` applies). -/
def dataTempC20 : JVal := .jObj [("current_condition", .jArr [ccTempC20])]

/-- The measurement spec of spec property 6:
`{temp_celsius: temp_C, temp_kelvin: temp_K}`. -/
def specC2 : List (String × String) :=
  [("temp_celsius", "temp_C"), ("temp_kelvin", "temp_K")]

/-- A response whose observation time falls in the 2025 spring-forward
gap of America/Los_Angeles: 02:30 local never occurs on 2025-03-09. -/
def dataGap : JVal :=
  .jObj [("current_condition",
          .jArr [.jObj [("localObsDateTime", .jStr "2025-03-09 02:30 AM")]])]

/-- A response carrying only a parseable observation time. -/
def dataObsOnly : JVal :=
  .jObj [("current_condition",
          .jArr [.jObj [("localObsDateTime", .jStr "2025-04-21 11:55 AM")]])]

/-- C1.  The claim says no error arising in the fetch/transform/write
path is fatal to the daemon loop.  The code violates it: a fully
well-formed, successfully fetched response reaches `_build_point`, whose
`timestamp_dt.strftime(...)` call raises `AttributeError` (because
`parse_observation_time` returns a `str`, not the `datetime` announced
by the comment above the call), and no handler exists between
`_build_point` and `main`'s `while` loop, so the first successful
fetch+parse kills the daemon and no further cycle runs. -/
theorem c1_transform_error_fatal_to_loop :
    fetchDataE (.resp 200 3000 (some dataLA)) = .ok (some dataLA) ∧
    buildPointE dataLA ciLA MEASUREMENTS = .error .attributeError ∧
    runCyclesE [[(ciLA, some dataLA)], []] [] = .error .attributeError :=
  ⟨rfl, rfl, rfl⟩

/-- C2.  The claim says `_build_point` returns a point with
`temp_celsius = 20.0`, `temp_kelvin = 293.0` and no missing fields for a
raw response with a valid `localObsDateTime` and `temp_C = "20"`.  The
code instead raises `AttributeError` before the field loop runs (the
`str`-vs-`datetime` defect of C1); the field loop itself, run on the
same regions, would produce exactly the claimed fields, ignoring the
native `temp_K = "999"` entry. -/
theorem c2_build_point_raises_attribute_error :
    buildPointE dataTempC20 ciUTC specC2 = .error .attributeError ∧
    buildFields specC2 ccTempC20 (.jObj []) =
      .ok ([("temp_celsius", (20 : ℚ)), ("temp_kelvin", (293 : ℚ))], []) :=
  ⟨rfl, rfl⟩

/-- C3, counterexample.  The claim says a field whose source key is
absent is omitted from the point and appended to the missing-fields
list.  For `temp_kelvin` with no `temp_C` key (and no key at all) in the
current condition, `_get_field_value` defaults the Celsius reading to
`0`, so the field is recorded as `273` and the missing-fields list stays
empty. -/
theorem c3_absent_source_key_still_recorded :
    buildFields [("temp_kelvin", "temp_K")] (.jObj []) (.jObj []) =
      .ok ([("temp_kelvin", (273 : ℚ))], []) ∧
    ¬ buildFields [("temp_kelvin", "temp_K")] (.jObj []) (.jObj []) =
        .ok ([], ["temp_kelvin"]) :=
  ⟨rfl, fun h => by
    injection h with h1
    injection h1 with h2 h3
    exact List.noConfusion h2⟩

/-- C5.  The five enumerated no-data outcomes hold as claimed, but the
claim's "any non-200 status code ... never raises" is violated: an HTTP
404 whose body exceeds 1000 bytes and parses to a JSON array makes the
wrong-city diagnostic call `.get` on a list, raising `AttributeError`
past `except (KeyError, IndexError, ValueError)` and out of
`fetch_data`. -/
theorem c5_fetch_no_data_cases_and_404_raise :
    fetchDataE (.resp 200 500 (some emptyNameBody)) = .ok none ∧
    fetchDataE (.resp 200 500 (some emptyCCBody)) = .ok none ∧
    fetchDataE (.resp 500 0 none) = .ok none ∧
    fetchDataE .timeout = .ok none ∧
    fetchDataE .connError = .ok none ∧
    fetchDataE (.resp 404 1001 (some (.jArr [.jStr "x"]))) =
      .error .attributeError :=
  ⟨rfl, rfl, rfl, rfl, rfl, rfl⟩

/-- C7, counterexample.  The claim says every accepted
`(local_time_string, timezone)` pair round-trips.  The normalizer
accepts `2025-03-09 02:30 AM` in `America/Los_Angeles` — a wall-clock
reading inside the spring-forward gap — producing 10:30 UTC, which read
back in the same zone is 03:30, sixty minutes after the original civil
time. -/
theorem c7_gap_roundtrip_fails :
    strptimeObs "2025-03-09 02:30 AM" = some (civilToMin 2025 3 9 2 30) ∧
    parseObsUTCMin dataGap ciLA =
      some (civilToMin 2025 3 9 2 30 + 480) ∧
    utcToLocal laTz (civilToMin 2025 3 9 2 30 + 480) =
      civilToMin 2025 3 9 2 30 + 60 ∧
    ¬ utcToLocal laTz (civilToMin 2025 3 9 2 30 + 480) =
        civilToMin 2025 3 9 2 30 := by
  refine ⟨rfl, rfl, by decide, by decide⟩

/-- C8, counterexample.  The claim says cycle starts are 30 seconds
apart whenever a cycle does not overrun the interval.  With every cycle
lasting 10 seconds (well under 30), the second cycle starts 40 seconds
after the first: `main` sleeps 30 seconds after the cycle ends, so the
cycle's own duration is added to the period. -/
theorem c8_interval_not_between_starts :
    cycleStart (fun _ => 10) 0 = 0 ∧
    cycleStart (fun _ => 10) 1 = 40 ∧
    (10 < 30 ∧ cycleStart (fun _ => 10) 1 - cycleStart (fun _ => 10) 0 ≠ 30) := by
  refine ⟨rfl, rfl, by decide, by decide⟩

/-- C9, counterexample.  The claim says the sink session opened at the
start of a cycle is closed on every path.  When the bucket-existence
check and the bucket creation both fail, `_collect_weather_data`
returns at line 152 without reaching `influx_manager.close()` at line
160. -/
theorem c9_provisioning_failure_skips_close :
    collectCycleE false false [] MEASUREMENTS true [] =
      .ok ({ closed := false, recorded := [], attempted := 0 }, []) ∧
    ({ closed := false, recorded := [], attempted := 0 } : CycleOut).closed
      ≠ true :=
  ⟨rfl, Bool.false_ne_true⟩

/-- Assignment followed by lookup on the `last_seen_timestamps` dict. -/
theorem lsLookup_lsSet (ls : LastSeen) (c t : String) :
    lsLookup (lsSet ls c t) c = some t := by
  induction ls with
  | nil => simp [lsSet, lsLookup]
  | cons kv rest ih =>
    obtain ⟨k, v⟩ := kv
    by_cases hk : k = c <;> simp [lsSet, lsLookup, hk, ih]

/-- C6.  Writing the same `(location, timestamp)` pair twice in sequence
through `_write_point` with the sink write succeeding both times: the
first call returns the city and stores the timestamp in the index, the
second call returns `None` and leaves the index untouched. -/
theorem c6_dedupe_idempotent (city ts : String) (m1 m2 : List String)
    (ls : LastSeen) (h : lsLookup ls city ≠ some ts) :
    (writePoint true city ts m1 ls).1 = some city ∧
    lsLookup (writePoint true city ts m1 ls).2 city = some ts ∧
    (writePoint true city ts m2 (writePoint true city ts m1 ls).2).1 = none ∧
    (writePoint true city ts m2 (writePoint true city ts m1 ls).2).2 =
      (writePoint true city ts m1 ls).2 := by
  have hb : (lsLookup ls city != some ts) = true := bne_iff_ne.mpr h
  simp [writePoint, hb, lsLookup_lsSet]

theorem c6_dedupe_idempotent_witness :
    (writePoint true "Savannah" "2025-04-21T15:55:00Z" [] []).1 =
      some "Savannah" ∧
    lsLookup (writePoint true "Savannah" "2025-04-21T15:55:00Z" [] []).2
        "Savannah" = some "2025-04-21T15:55:00Z" ∧
    (writePoint true "Savannah" "2025-04-21T15:55:00Z" []
        (writePoint true "Savannah" "2025-04-21T15:55:00Z" [] []).2).1 =
      none ∧
    (writePoint true "Savannah" "2025-04-21T15:55:00Z" []
        (writePoint true "Savannah" "2025-04-21T15:55:00Z" [] []).2).2 =
      (writePoint true "Savannah" "2025-04-21T15:55:00Z" [] []).2 :=
  c6_dedupe_idempotent "Savannah" "2025-04-21T15:55:00Z" [] [] []
    (by decide)

/-- Round trip of the zone conversion outside a spring-forward gap: the
wall-clock reading survives localize-then-convert-back for every reading
some instant of the zone actually shows. -/
theorem tz_roundtrip_outside_gap (z : TzModel) (l : Int)
    (h : ¬ inGap z l) : utcToLocal z (localToUTC z l) = l := by
  have hm := max_choice z.offBefore z.offAfter
  unfold inGap at h
  unfold utcToLocal localToUTC localOffset utcOffset
  rcases hm with hm | hm <;> rw [hm] <;> split_ifs <;> omega

/-- C7, amended.  For every accepted `(local_time_string, timezone)`
pair whose wall-clock reading is not inside a spring-forward gap of the
zone, converting the normalizer's UTC output back into the same zone
reproduces the original local civil time. -/
theorem c7_roundtrip_outside_gap (data : JVal) (ci : CityInfo)
    (s : String) (l u : Int) (z : TzModel)
    (hs : getLocalObsStr data = some s) (hl : strptimeObs s = some l)
    (hz : zoneOf (ci.tz.getD "UTC") = some z)
    (hu : parseObsUTCMin data ci = some u) (hgap : ¬ inGap z l) :
    utcToLocal z u = l := by
  unfold parseObsUTCMin at hu
  rw [hs] at hu
  simp [hl, hz] at hu
  subst hu
  exact tz_roundtrip_outside_gap z l hgap

theorem c7_roundtrip_outside_gap_witness :
    utcToLocal utcTz (civilToMin 2025 4 21 11 55) =
      civilToMin 2025 4 21 11 55 :=
  c7_roundtrip_outside_gap dataObsOnly ciUTC "2025-04-21 11:55 AM"
    (civilToMin 2025 4 21 11 55) (civilToMin 2025 4 21 11 55) utcTz
    rfl rfl rfl rfl (by decide)

/-- C8, amended.  Under `main`'s loop the n-th cycle starts at
`30 * n` plus the total duration of all earlier cycles: the 30-second
sleep separates a cycle's end from the next start, so every cycle's own
duration is added to the period between starts. -/
theorem c8_cycle_start_closed_form (durs : Nat → Nat) (n : Nat) :
    cycleStart durs n = 30 * n + ((List.range n).map durs).sum := by
  induction n with
  | zero => simp [cycleStart]
  | succ k ih =>
    simp [cycleStart, ih, List.range_succ]
    ring

/-- C9, amended.  Whenever bucket provisioning does not fail outright
(the existence check or the creation succeeds) and the cycle body runs
to completion, `influx_manager.close()` is reached; the early-return
path of a doubly-failed provisioning is the one that skips it. -/
theorem c9_close_reached_amended (be co : Bool)
    (fetched : List (CityInfo × Option JVal)) (ms : List (String × String))
    (w : Bool) (ls : LastSeen) (res : CycleOut × LastSeen)
    (hok : be = true ∨ co = true)
    (hrun : collectCycleE be co fetched ms w ls = .ok res) :
    res.1.closed = true := by
  have hcond : ¬((!be) = true ∧ (!co) = true) := by
    rcases hok with h | h <;> simp [h]
  unfold collectCycleE at hrun
  rw [if_neg hcond] at hrun
  cases htr : transformPhaseE fetched ms with
  | error e =>
    rw [htr] at hrun
    exact Except.noConfusion hrun
  | ok items =>
    rw [htr] at hrun
    injection hrun with h
    rw [← h]

theorem c9_close_reached_amended_witness :
    collectCycleE true true [] MEASUREMENTS true [] =
      .ok ({ closed := true, recorded := [], attempted := 0 }, []) ∧
    ({ closed := true, recorded := [], attempted := 0 } : CycleOut).closed =
      true :=
  ⟨rfl, c9_close_reached_amended true true [] MEASUREMENTS true []
    ({ closed := true, recorded := [], attempted := 0 }, [])
    (Or.inl rfl) rfl⟩

/-- C10.  When the location dictionary has no `tz` entry,
`parse_observation_time` does not fail: `city_info.get("tz", "UTC")`
silently defaults to UTC, so a parseable local observation string is
returned as a timestamp whose civil reading is unchanged. -/
theorem c10_missing_tz_defaults_to_utc (data : JVal) (ci : CityInfo)
    (s : String) (l : Int)
    (htz : ci.tz = none) (hs : getLocalObsStr data = some s)
    (hl : strptimeObs s = some l) :
    parse_observation_time data ci = some (fmtIso l) := by
  unfold parse_observation_time parseObsUTCMin
  rw [hs, htz]
  simp [hl, zoneOf, utcTz, localToUTC, localOffset]

theorem c10_missing_tz_defaults_to_utc_witness :
    parse_observation_time dataObsOnly ciNoTz =
      some (fmtIso (civilToMin 2025 4 21 11 55)) :=
  c10_missing_tz_defaults_to_utc dataObsOnly ciNoTz
    "2025-04-21 11:55 AM" (civilToMin 2025 4 21 11 55) rfl rfl rfl

/-- Bind of a successful `Except` computation, for rewriting do-blocks. -/
theorem exceptBind_ok {α β : Type} (a : α) (f : α → Except PyExc β) :
    (Except.ok a >>= f) = f a := rfl

/-- Bind of a failed `Except` computation, for rewriting do-blocks. -/
theorem exceptBind_error {α β : Type} (e : PyExc) (f : α → Except PyExc β) :
    ((Except.error e : Except PyExc α) >>= f) = .error e := rfl

/-- Forget the exception of an `Except` result. -/
def exceptToOption {α : Type} : Except PyExc α → Option α
  | .ok a => some a
  | .error _ => none

/-- Net effect of one measurement entry of `_build_point`'s loop when
both response regions are dicts: `some q` when the entry is recorded
with value `q`, `none` when its name goes to the missing-fields list. -/
def entryOutcome (fn jk : String) (ccf naf : List (String × JVal)) :
    Option ℚ :=
  match getFieldValueE fn jk (.jObj ccf) (.jObj naf) with
  | .ok .jNull => none
  | .ok v => exceptToOption (pyFloatE v)
  | .error _ => none

/-- Lifting `pure` to the `ok` constructor, for rewriting do-blocks. -/
theorem exceptPure_eq_ok {α : Type} (a : α) :
    (pure a : Except PyExc α) = .ok a := rfl

/-- On dict-shaped regions `_get_field_value` never raises: every branch
returns a value (possibly `None`). -/
theorem getFieldValueE_ok (fn jk : String)
    (ccf naf : List (String × JVal)) :
    ∃ v, getFieldValueE fn jk (.jObj ccf) (.jObj naf) = .ok v := by
  by_cases h1 : fn = "latitude" ∨ fn = "longitude"
  · simp [getFieldValueE, h1, getAttrNoneE, getAttrE]
  · by_cases h2 : fn = "temp_kelvin"
    · simp only [getFieldValueE, h1, h2, if_false, if_true, getAttrE,
        exceptBind_ok]
      cases pyFloatE ((jlookup ccf "temp_C").getD (.jNum 0)) <;>
        exact ⟨_, rfl⟩
    · simp [getFieldValueE, h1, h2, getAttrNoneE, getAttrE]

/-- The field loop on dict-shaped regions, in closed form: the recorded
fields are the entries whose outcome is a value, in spec order; the
missing-fields list is the names of the entries whose outcome is
`none`, in spec order. -/
theorem buildFields_spec (ms : List (String × String))
    (ccf naf : List (String × JVal)) :
    buildFields ms (.jObj ccf) (.jObj naf) =
      .ok (ms.filterMap
             (fun p => (entryOutcome p.1 p.2 ccf naf).map (fun q => (p.1, q))),
           (ms.filter
             (fun p => (entryOutcome p.1 p.2 ccf naf).isNone)).map
             Prod.fst) := by
  induction ms with
  | nil => simp [buildFields]
  | cons p rest ih =>
    obtain ⟨v, hv⟩ := getFieldValueE_ok p.1 p.2 ccf naf
    cases v with
    | jNull =>
      have hE : entryOutcome p.1 p.2 ccf naf = none := by
        simp only [entryOutcome, hv]
      simp [buildFields, hv, ih, exceptBind_ok, exceptPure_eq_ok, hE,
        List.filterMap_cons, List.filter_cons]
    | jStr s =>
      cases hpf : pyFloatE (.jStr s) with
      | ok q =>
        have hE : entryOutcome p.1 p.2 ccf naf = some q := by
          simp only [entryOutcome, hv, hpf, exceptToOption]
        simp [buildFields, hv, ih, exceptBind_ok, exceptPure_eq_ok, hE, hpf,
          List.filterMap_cons, List.filter_cons]
      | error e =>
        have hE : entryOutcome p.1 p.2 ccf naf = none := by
          simp only [entryOutcome, hv, hpf, exceptToOption]
        simp [buildFields, hv, ih, exceptBind_ok, exceptPure_eq_ok, hE, hpf,
          List.filterMap_cons, List.filter_cons]
    | jNum q =>
      have hE : entryOutcome p.1 p.2 ccf naf = some q := by
        simp only [entryOutcome, hv, pyFloatE, exceptToOption]
      simp [buildFields, hv, ih, exceptBind_ok, exceptPure_eq_ok, hE, pyFloatE,
        List.filterMap_cons, List.filter_cons]
    | jArr xs =>
      have hE : entryOutcome p.1 p.2 ccf naf = none := by
        simp only [entryOutcome, hv, pyFloatE, exceptToOption]
      simp [buildFields, hv, ih, exceptBind_ok, exceptPure_eq_ok, hE, pyFloatE,
        List.filterMap_cons, List.filter_cons]
    | jObj gs =>
      have hE : entryOutcome p.1 p.2 ccf naf = none := by
        simp only [entryOutcome, hv, pyFloatE, exceptToOption]
      simp [buildFields, hv, ih, exceptBind_ok, exceptPure_eq_ok, hE, pyFloatE,
        List.filterMap_cons, List.filter_cons]

/-- The externally-visible failure condition the claim describes for one
measurement entry: the source key resolves to nothing (absent key or
JSON `null`, both a Python `None`) or the resolved value fails `float`
coercion.  The source region is the one `_get_field_value` actually
reads for the entry (nearest-area for the geographic fields, current
condition otherwise). -/
def sourceAbsentOrUncoercible (fn jk : String)
    (ccf naf : List (String × JVal)) : Bool :=
  match (if fn = "latitude" ∨ fn = "longitude"
         then jlookup naf jk else jlookup ccf jk) with
  | none => true
  | some .jNull => true
  | some v => (exceptToOption (pyFloatE v)).isNone

/-- For every non-derived field, the loop outcome is determined by the
raw lookup: nothing resolved or a coercion failure lands the entry in
the missing-fields list. -/
theorem entryOutcome_none_of_absent (fn jk : String)
    (ccf naf : List (String × JVal)) (hk : fn ≠ "temp_kelvin")
    (ha : sourceAbsentOrUncoercible fn jk ccf naf = true) :
    entryOutcome fn jk ccf naf = none := by
  unfold sourceAbsentOrUncoercible at ha
  by_cases h1 : fn = "latitude" ∨ fn = "longitude"
  · rw [if_pos h1] at ha
    cases hr : jlookup naf jk with
    | none =>
      simp [entryOutcome, getFieldValueE, h1, getAttrNoneE, getAttrE, hr]
    | some v =>
      rw [hr] at ha
      cases v <;>
        simp_all [entryOutcome, getFieldValueE, h1, getAttrNoneE, getAttrE,
          hr, Option.isNone_iff_eq_none]
  · rw [if_neg h1] at ha
    cases hr : jlookup ccf jk with
    | none =>
      simp [entryOutcome, getFieldValueE, h1, hk, getAttrNoneE, getAttrE, hr]
    | some v =>
      rw [hr] at ha
      cases v <;>
        simp_all [entryOutcome, getFieldValueE, h1, hk, getAttrNoneE,
          getAttrE, hr, Option.isNone_iff_eq_none]

/-- The derived `temp_kelvin` entry with no `temp_C` source key at all:
`current_condition.get("temp_C", 0)` defaults to `0`, which coerces, so
the loop records `0 + KELVIN_OFFSET`. -/
theorem entryOutcome_kelvin_absent (jk : String)
    (ccf naf : List (String × JVal))
    (h : jlookup ccf "temp_C" = none) :
    entryOutcome "temp_kelvin" jk ccf naf = some KELVIN_OFFSET := by
  have hg : getFieldValueE "temp_kelvin" jk (.jObj ccf) (.jObj naf)
      = .ok (.jNum (ratAdd 0 KELVIN_OFFSET)) := by
    simp [getFieldValueE, getAttrE, h, exceptBind_ok, pyFloatE,
      exceptPure_eq_ok]
  have hz : ratAdd 0 KELVIN_OFFSET = KELVIN_OFFSET := by
    rw [ratAdd_eq_add, zero_add]
  simp [entryOutcome, hg, pyFloatE, exceptToOption, hz]

/-- C3, amended.  On dict-shaped response regions and a spec without
duplicate field names, every requested field lands in exactly one of the
point's fields (always numeric, by construction of the loop) and the
missing-fields list; a non-derived field whose source key resolves to
nothing or fails coercion always lands in the missing list; the derived
`temp_kelvin` field, however, is recorded as `273.0` when its Celsius
source key is absent, instead of being reported missing. -/
theorem c3_field_partition_amended (ms : List (String × String))
    (ccf naf : List (String × JVal))
    (fs : List (String × ℚ)) (msgs : List String)
    (hnd : (ms.map Prod.fst).Nodup)
    (hrun : buildFields ms (.jObj ccf) (.jObj naf) = .ok (fs, msgs)) :
    (∀ p ∈ ms,
      (p.1 ∈ fs.map Prod.fst ∧ p.1 ∉ msgs) ∨
      (p.1 ∉ fs.map Prod.fst ∧ p.1 ∈ msgs)) ∧
    (∀ p ∈ ms, p.1 ≠ "temp_kelvin" →
      sourceAbsentOrUncoercible p.1 p.2 ccf naf = true →
      p.1 ∉ fs.map Prod.fst ∧ p.1 ∈ msgs) ∧
    (∀ jk, ("temp_kelvin", jk) ∈ ms → jlookup ccf "temp_C" = none →
      ("temp_kelvin", KELVIN_OFFSET) ∈ fs ∧ "temp_kelvin" ∉ msgs) := by
  rw [buildFields_spec] at hrun
  injection hrun with hpair
  injection hpair with hfs hmsgs
  subst hfs
  subst hmsgs
  have hinj : ∀ x ∈ ms, ∀ y ∈ ms, x.1 = y.1 → x = y :=
    fun x hx y hy hxy => List.inj_on_of_nodup_map hnd hx hy hxy
  have hmain : ∀ p ∈ ms,
      (entryOutcome p.1 p.2 ccf naf = none →
        p.1 ∉ (ms.filterMap (fun p =>
          (entryOutcome p.1 p.2 ccf naf).map (fun q => (p.1, q)))).map
            Prod.fst ∧
        p.1 ∈ (ms.filter (fun p =>
          (entryOutcome p.1 p.2 ccf naf).isNone)).map Prod.fst) ∧
      (∀ q, entryOutcome p.1 p.2 ccf naf = some q →
        (p.1, q) ∈ ms.filterMap (fun p =>
          (entryOutcome p.1 p.2 ccf naf).map (fun q => (p.1, q))) ∧
        p.1 ∉ (ms.filter (fun p =>
          (entryOutcome p.1 p.2 ccf naf).isNone)).map Prod.fst) := by
    intro p hp
    constructor
    · intro ho
      constructor
      · intro hmem
        obtain ⟨pair, hpairmem, hpair1⟩ := List.mem_map.mp hmem
        obtain ⟨p', hp'mem, hp'eq⟩ := List.mem_filterMap.mp hpairmem
        obtain ⟨q, hq, hpairdef⟩ := Option.map_eq_some'.mp hp'eq
        have hp'1 : p'.1 = p.1 := by
          rw [← hpair1, ← hpairdef]
        have : p' = p := hinj p' hp'mem p hp hp'1
        rw [this] at hq
        rw [ho] at hq
        exact Option.noConfusion hq
      · exact List.mem_map.mpr
          ⟨p, List.mem_filter.mpr ⟨hp, by rw [ho]; rfl⟩, rfl⟩
    · intro q hq
      constructor
      · exact List.mem_filterMap.mpr ⟨p, hp, by rw [hq]; rfl⟩
      · intro hmem
        obtain ⟨p', hp'mem, hp'1⟩ := List.mem_map.mp hmem
        have hfilter := List.mem_filter.mp hp'mem
        have : p' = p := hinj p' hfilter.1 p hp hp'1
        rw [this] at hfilter
        rw [hq] at hfilter
        exact Option.noConfusion (Option.isNone_iff_eq_none.mp hfilter.2)
  refine ⟨?_, ?_, ?_⟩
  · intro p hp
    cases ho : entryOutcome p.1 p.2 ccf naf with
    | none => exact Or.inr ((hmain p hp).1 ho)
    | some q =>
      obtain ⟨hin, hnot⟩ := (hmain p hp).2 q ho
      exact Or.inl ⟨List.mem_map.mpr ⟨(p.1, q), hin, rfl⟩, hnot⟩
  · intro p hp hk ha
    exact (hmain p hp).1 (entryOutcome_none_of_absent p.1 p.2 ccf naf hk ha)
  · intro jk hjk hC
    have ho := entryOutcome_kelvin_absent jk ccf naf hC
    exact (hmain ("temp_kelvin", jk) hjk).2 KELVIN_OFFSET ho

theorem c3_field_partition_amended_witness :
    ("temp_celsius" ∈
        ([("temp_celsius", (20 : ℚ))].map Prod.fst) ∧
      "temp_celsius" ∉ ([] : List String)) ∨
    ("temp_celsius" ∉
        ([("temp_celsius", (20 : ℚ))].map Prod.fst) ∧
      "temp_celsius" ∈ ([] : List String)) :=
  (c3_field_partition_amended [("temp_celsius", "temp_C")]
      [("temp_C", .jStr "20")] [] [("temp_celsius", (20 : ℚ))] []
      (by simp) rfl).1
    ("temp_celsius", "temp_C") (by simp)

/-- C4.  Whenever the current condition carries a `temp_C` value,
`_get_field_value` resolves `temp_kelvin` as `float(temp_C) + 273`
(returning `None` when the coercion raises), and its result is fully
determined by the `temp_C` entry — in particular it never reads the
native `temp_K` key the MeasurementSpec nominally maps it to. -/
theorem c4_kelvin_derived_from_celsius (jk : String)
    (ccf naf : List (String × JVal)) (v : JVal)
    (hv : jlookup ccf "temp_C" = some v) :
    getFieldValueE "temp_kelvin" jk (.jObj ccf) (.jObj naf) =
      .ok (match pyFloatE v with
           | .ok q => .jNum (q + KELVIN_OFFSET)
           | .error _ => .jNull) ∧
    ∀ ccf' : List (String × JVal),
      jlookup ccf' "temp_C" = jlookup ccf "temp_C" →
      getFieldValueE "temp_kelvin" jk (.jObj ccf') (.jObj naf) =
        getFieldValueE "temp_kelvin" jk (.jObj ccf) (.jObj naf) := by
  have key : ∀ cf : List (String × JVal), jlookup cf "temp_C" = some v →
      getFieldValueE "temp_kelvin" jk (.jObj cf) (.jObj naf) =
        .ok (match pyFloatE v with
             | .ok q => .jNum (q + KELVIN_OFFSET)
             | .error _ => .jNull) := by
    intro cf hcf
    cases hpf : pyFloatE v with
    | ok q =>
      simp [getFieldValueE, getAttrE, hcf, exceptBind_ok, hpf,
        exceptPure_eq_ok, ratAdd_eq_add]
    | error e =>
      simp [getFieldValueE, getAttrE, hcf, exceptBind_ok, hpf,
        exceptPure_eq_ok]
  refine ⟨key ccf hv, fun ccf' hsame => ?_⟩
  rw [key ccf' (hsame.trans hv), key ccf hv]

theorem c4_kelvin_derived_from_celsius_witness :
    getFieldValueE "temp_kelvin" "temp_K"
        (.jObj [("temp_C", .jStr "20"), ("temp_K", .jStr "999")])
        (.jObj []) = .ok (.jNum (293 : ℚ)) := by
  have h := (c4_kelvin_derived_from_celsius "temp_K"
    [("temp_C", .jStr "20"), ("temp_K", .jStr "999")] [] (.jStr "20")
    rfl).1
  have hpf : pyFloatE (.jStr "20") = .ok (20 : ℚ) := rfl
  rw [h, hpf]
  norm_num [KELVIN_OFFSET]
